import Mathlib

/-!
Shallow embedding of the consent & transaction synchronization engine of the
`Vinatien/backend` repository.

Conventions of the embedding:
* timestamps are `Int` (seconds); Python `datetime.now(...)` becomes an explicit
  `now : Int` parameter, `timedelta(days := 90)` becomes `90 * 86400`;
* the SQLAlchemy session / database becomes an explicit `Store` value threaded
  through the service functions; committing is updating the store;
* monetary `Decimal` values become `Int` (scaled fixed-point);
* outcomes of outbound provider HTTP calls become explicit parameters of the
  service functions (the services under verification only branch on those
  outcomes, never on how they were produced);
* a Python function that can raise becomes a function into
  `Store × Except AppError α`: the returned store is the database state after
  the call (unchanged whenever the exception escapes before a commit).
-/

/-- The exception taxonomy of `app/types/exceptions/__init__.py`, restricted to
the three classes the consent/sync services raise. -/
inductive AppError where
  | notFound (msg : String)
  | businessRule (msg : String)
  | conflict (msg : String)
deriving DecidableEq, Repr

/-- Row of the `bank_accounts` table as declared by `models/bank_account_model.py`.
`created_at` / `updated_at` are audit columns never read by the services and are
omitted. -/
structure BankAccount where
  id : Nat
  account_id : Nat
  bank_provider : String
  consent_id : String
  iban : String
  consent_valid_until : Int
  consent_status : String
  is_active : Bool
  last_synced_at : Option Int
deriving DecidableEq, Repr

/-- Row of the `transactions` table as declared by `models/transaction_model.py`.
The database-generated `id` and server-defaulted `created_at` are omitted; note
the model declares NO table-level unique constraint (it imports
`UniqueConstraint` but never uses it). -/
structure Transaction where
  bank_account_id : Nat
  booking_date : Int
  value_date : Option Int
  amount : Int
  currency : String
  creditor_name : Option String
  debtor_name : Option String
  creditor_account_last4 : Option String
  debtor_account_last4 : Option String
  booking_status : String
deriving DecidableEq, Repr

/-- The persistent state reachable through the two repositories used by the
consent/sync services. -/
structure Store where
  bankAccounts : List BankAccount
  transactions : List Transaction
deriving DecidableEq, Repr

/-- `bank_account_repository.get_bank_account_by_id`: select the bank account
whose `id` and (owner) `account_id` both match. -/
def get_bank_account_by_id (store : Store) (bank_account_id account_id : Nat) :
    Option BankAccount :=
  store.bankAccounts.find? (fun ba => ba.id = bank_account_id ∧ ba.account_id = account_id)

/-- Modelled from the spec: `bank_account_repository.get_bank_account_by_account_id`
is called by `bank_account_service` but its definition is absent from the sources
(only its callers appear). Per the spec, `getBankLink(ownerId) → BankLinkSummary | none`
and `accountId` is an owner reference with at most one active link per account:
the lookup returns the owner's stored bank link, or none. -/
def get_bank_account_by_account_id (store : Store) (account_id : Nat) :
    Option BankAccount :=
  store.bankAccounts.find? (fun ba => ba.account_id = account_id)

/-- `bank_account_repository.get_bank_account_by_consent_id`. -/
def get_bank_account_by_consent_id (store : Store) (consent_id : String) :
    Option BankAccount :=
  store.bankAccounts.find? (fun ba => ba.consent_id = consent_id)

/-- `bank_account_repository.create_bank_account`: inserts a row with
`consent_status = "valid"` and `is_active = True` and returns it.
`new_id` stands for the database-generated primary key. -/
def create_bank_account (store : Store) (new_id account_id : Nat)
    (bank_provider consent_id iban : String) (consent_valid_until : Int) :
    Store × BankAccount :=
  let bank_account : BankAccount :=
    { id := new_id, account_id := account_id, bank_provider := bank_provider,
      consent_id := consent_id, iban := iban,
      consent_valid_until := consent_valid_until,
      consent_status := "valid", is_active := true, last_synced_at := none }
  ({ store with bankAccounts := store.bankAccounts ++ [bank_account] }, bank_account)

/-- `bank_account_repository.update_bank_account_sync_time`: set
`last_synced_at` on the row with the given id. -/
def update_bank_account_sync_time (store : Store) (bank_account_id : Nat)
    (sync_time : Int) : Store :=
  { store with
    bankAccounts := store.bankAccounts.map (fun ba =>
      if ba.id = bank_account_id then { ba with last_synced_at := some sync_time } else ba) }

/-- `transaction_repository.bulk_create_transactions`: `session.add_all` then
commit — a plain append, no conflict handling. -/
def bulk_create_transactions (store : Store) (txs : List Transaction) : Store :=
  { store with transactions := store.transactions ++ txs }

/-- Python dict `.get(key, default)` over a string-valued dict modelled as an
association list. -/
def dictGet (d : List (String × String)) (key default : String) : String :=
  ((d.find? (fun p => p.1 = key)).map (fun p => p.2)).getD default

/-- `transaction_service._extract_last4`: `None`/empty gives `None`, otherwise
`iban[-4:] if len(iban) >= 4 else iban`. -/
def _extract_last4 : Option String → Option String
  | none => none
  | some iban =>
    if iban = "" then none
    else if 4 ≤ iban.length then some (String.mk (iban.data.drop (iban.data.length - 4)))
    else some iban

/-- One raw transaction record of the provider feed, holding exactly the fields
`sync_transactions_from_bank` reads. An absent JSON field is `none`; the ISO
date strings are modelled already parsed, as `Int` timestamps. -/
structure RawTx where
  bookingDate : Option Int
  valueDate : Option Int
  amount : Option Int
  currency : Option String
  creditorIban : Option String
  debtorIban : Option String
  creditorName : Option String
  debtorName : Option String
deriving BEq, DecidableEq, Repr

/-- The provider feed returned by `VPBank.get_transactions_and_review` on
success: two booking-status buckets. -/
structure TxFeed where
  booked : List RawTx
  pending : List RawTx
deriving DecidableEq, Repr

/-- Value returned by `sync_transactions_from_bank`
(`app/types/transaction_dtos.SyncTransactionsResponse`). -/
structure SyncTransactionsResponse where
  synced_count : Nat
  new_transactions : Nat
  last_synced_at : Int
  message : String
deriving DecidableEq, Repr

/-- The per-record body of the loop in `sync_transactions_from_bank`
(lines 169-225): field extraction with defaults, last-4 derivation, booking
date defaulting to the ingestion time `now`, and the booking status inferred
from membership in the `booked` bucket. -/
def buildTransaction (bank_account_id : Nat) (now : Int) (booked : List RawTx)
    (tx : RawTx) : Transaction :=
  { bank_account_id := bank_account_id,
    booking_date := tx.bookingDate.getD now,
    amount := tx.amount.getD 0,
    creditor_account_last4 := _extract_last4 tx.creditorIban,
    debtor_account_last4 := _extract_last4 tx.debtorIban,
    value_date := tx.valueDate,
    currency := tx.currency.getD "EUR",
    booking_status := if booked.contains tx then "booked" else "pending",
    creditor_name := tx.creditorName,
    debtor_name := tx.debtorName }

/-- `transaction_service.sync_transactions_from_bank`. `fetch` is the
`(success, tx_data)` pair produced by `VPBank.get_transactions_and_review`.
The inner `BusinessRuleException("Failed to fetch transactions from bank")` is
re-wrapped by the function's broad `except Exception` handler, hence the
`"Failed to sync transactions: ..."` message. Note the loop inserts every
fetched record and counts every record as new: there is no duplicate check. -/
def sync_transactions_from_bank (store : Store) (bank_account_id account_id : Nat)
    (now : Int) (fetch : Bool × Option TxFeed) :
    Store × Except AppError SyncTransactionsResponse :=
  match get_bank_account_by_id store bank_account_id account_id with
  | none => (store, Except.error (AppError.notFound "Bank account not found"))
  | some bank_account =>
    if bank_account.consent_status ≠ "valid" then
      (store, Except.error (AppError.businessRule ("Consent is " ++ bank_account.consent_status)))
    else if bank_account.consent_valid_until < now then
      (store, Except.error (AppError.businessRule "Consent has expired"))
    else
      match fetch with
      | (true, some tx_data) =>
        let all_transactions := tx_data.booked ++ tx_data.pending
        let transactions_to_create :=
          all_transactions.map (buildTransaction bank_account_id now tx_data.booked)
        let new_count := transactions_to_create.length
        let store1 := bulk_create_transactions store transactions_to_create
        let store2 := update_bank_account_sync_time store1 bank_account_id now
        (store2, Except.ok
          { synced_count := all_transactions.length,
            new_transactions := new_count,
            last_synced_at := now,
            message := "Successfully synced " ++ toString new_count ++ " new transactions" })
      | _ =>
        (store, Except.error (AppError.businessRule
          "Failed to sync transactions: Failed to fetch transactions from bank"))

/-- Value returned by `get_balance`
(`app/types/bank_account_dtos.BalanceResponse`). -/
structure BalanceResponse where
  amount : String
  currency : String
deriving DecidableEq, Repr

/-- `bank_account_service.get_balance`. `balanceFetch` is the
`(success, balance_data)` pair produced by `VPBank.get_balance`, with the
`balance_data` dict modelled as an association list; Python truthiness makes an
empty dict fail the `if not success or not balance_data` guard. The function
never consults the clock and never checks `consent_valid_until`. -/
def get_balance (store : Store) (bank_account_id account_id : Nat)
    (balanceFetch : Bool × Option (List (String × String))) :
    Except AppError BalanceResponse :=
  match get_bank_account_by_id store bank_account_id account_id with
  | none => Except.error (AppError.notFound "Bank account not found")
  | some bank_account =>
    if bank_account.consent_status ≠ "valid" then
      Except.error (AppError.businessRule ("Consent is " ++ bank_account.consent_status))
    else
      match balanceFetch with
      | (true, some balance_data) =>
        if balance_data.isEmpty then
          Except.error (AppError.businessRule
            "Failed to get balance: Failed to fetch balance from bank")
        else
          Except.ok { amount := dictGet balance_data "amount" "0",
                      currency := dictGet balance_data "currency" "EUR" }
      | _ =>
        Except.error (AppError.businessRule
          "Failed to get balance: Failed to fetch balance from bank")

/-- Outcome of `VPBank.create_consent_and_get_iban` as observed by the service:
either the discovered IBAN, or an exception — an HTTPError from
`raise_for_status` (re-wrapped by the service as `"Bank API error: ..."`) or any
other exception such as the `ValueError` raised when the access list is empty
(re-wrapped as `"Failed to link bank account: ..."`). -/
inductive ConsentOutcome where
  | ok (iban : String)
  | httpError (msg : String)
  | failure (msg : String)
deriving DecidableEq, Repr

/-- The provider-side behaviour observed during one `link_bank_account` call:
the consent-creation outcome, the `Consent-ID` header left on the session
afterwards, and whether the balance probe on the discovered IBAN succeeded. -/
structure LinkProvider where
  consentOutcome : ConsentOutcome
  consentId : Option String
  balanceProbeSuccess : Bool
deriving DecidableEq, Repr

/-- `bank_account_service.link_bank_account`. Everything from consent creation
onwards runs inside `try: ... except requests.exceptions.HTTPError / except
Exception` handlers, so every exception raised there — including the
`ConflictException` of the consent-id collision check — reaches the caller
re-wrapped as `BusinessRuleException("Failed to link bank account: ...")`.
Only the owner-already-linked `ConflictException` (raised before the `try`)
escapes with its own type. `new_id` stands for the database-generated key. -/
def link_bank_account (store : Store) (account_id : Nat) (bank_provider : String)
    (provider : LinkProvider) (now : Int) (new_id : Nat) :
    Store × Except AppError BankAccount :=
  match get_bank_account_by_account_id store account_id with
  | some _ => (store, Except.error (AppError.conflict "User already has a bank account linked"))
  | none =>
    if bank_provider ≠ "vpbank" then
      (store, Except.error (AppError.businessRule "Only VPBank is currently supported"))
    else
      match provider.consentOutcome with
      | ConsentOutcome.httpError msg =>
        (store, Except.error (AppError.businessRule ("Bank API error: " ++ msg)))
      | ConsentOutcome.failure msg =>
        (store, Except.error (AppError.businessRule ("Failed to link bank account: " ++ msg)))
      | ConsentOutcome.ok iban =>
        match provider.consentId with
        | none =>
          (store, Except.error (AppError.businessRule
            "Failed to link bank account: Failed to retrieve consent ID from bank"))
        | some consent_id =>
          if consent_id = "" then
            (store, Except.error (AppError.businessRule
              "Failed to link bank account: Failed to retrieve consent ID from bank"))
          else if ¬ provider.balanceProbeSuccess then
            (store, Except.error (AppError.businessRule
              ("Failed to link bank account: IBAN " ++ iban ++
               " is not accessible or invalid. The bank API returned an error when trying to access this account.")))
          else
            match get_bank_account_by_consent_id store consent_id with
            | some _ =>
              (store, Except.error (AppError.businessRule
                "Failed to link bank account: This bank account is already linked"))
            | none =>
              let result := create_bank_account store new_id account_id "vpbank"
                consent_id iban (now + 90 * 86400)
              (result.1, Except.ok result.2)

/-- `requests.Session.headers.update({key: value})`: overwrite in place when the
key is present, append otherwise. -/
def headers_update (headers : List (String × String)) (key value : String) :
    List (String × String) :=
  if (headers.find? (fun p => p.1 = key)).isSome then
    headers.map (fun p => if p.1 = key then (key, value) else p)
  else
    headers ++ [(key, value)]

/-- `del session.headers[key]` guarded by `if key in session.headers` — overall
an unconditional removal. -/
def headers_del (headers : List (String × String)) (key : String) :
    List (String × String) :=
  headers.filter (fun p => p.1 ≠ key)

/-- `session.headers.get(key)`. -/
def headers_get (headers : List (String × String)) (key : String) : Option String :=
  (headers.find? (fun p => p.1 = key)).map (fun p => p.2)

/-- An outbound sandbox call as the service observes it: the header set the
request was issued with, and the value the Python function returned —
`some true` / `some false`, or `none` where the Python code falls off the end of
the function (returning `None`) on a 2xx/3xx status not matched by any branch. -/
structure SandboxCallResult where
  request_headers : List (String × String)
  returned : Option Bool
deriving DecidableEq, Repr

/-- `VPBank.delete_all_transactions` (lines 153-182): sets `X-Request-ID`, then
removes `Consent-ID`, issues the DELETE, and maps the response status:
200/204 → True, 404 → False, other error statuses raise through
`raise_for_status` and the `except HTTPError` handler returns False. -/
def delete_all_transactions (headers : List (String × String))
    (request_id : String) (status : Nat) : SandboxCallResult :=
  let h1 := headers_update headers "X-Request-ID" request_id
  let h2 := headers_del h1 "Consent-ID"
  let returned :=
    if status = 200 ∨ status = 204 then some true
    else if status = 404 then some false
    else if 400 ≤ status ∧ status < 600 then some false
    else none
  { request_headers := h2, returned := returned }

/-- `VPBank.create_mock_deposit` (lines 217-260): removes `Consent-ID`, then
sets `X-Request-ID`, issues the POST, and maps the response status:
201 → True, 404 → False, other error statuses raise through `raise_for_status`
and the `except HTTPError` handler returns False. -/
def create_mock_deposit (headers : List (String × String))
    (request_id : String) (status : Nat) : SandboxCallResult :=
  let h1 := headers_del headers "Consent-ID"
  let h2 := headers_update h1 "X-Request-ID" request_id
  let returned :=
    if status = 201 then some true
    else if status = 404 then some false
    else if 400 ≤ status ∧ status < 600 then some false
    else none
  { request_headers := h2, returned := returned }

/-- The column tuples carrying a table-level `UniqueConstraint` in the
`transactions` table as declared by `models/transaction_model.py`: there are
none (the model imports `UniqueConstraint` but never declares one). -/
def transaction_model_unique_constraints : List (List String) := []

/-- The column tuples carrying a `UniqueConstraint` on the `transactions` table
as created by migration `17d3af435f87` (`uq_bank_account_transaction`). -/
def migration_transactions_unique_constraints : List (List String) :=
  [["bank_account_id", "transaction_id"]]

/-- The dedup tuple the spec designates as the transaction identity. -/
def dedup_tuple_columns : List String :=
  ["bank_account_id", "booking_date", "amount", "creditor_account_last4",
   "debtor_account_last4"]

/-- The dedup key of a stored transaction row: the five fields of the spec's
dedup tuple. -/
def dedupKey (t : Transaction) :
    Nat × Int × Int × Option String × Option String :=
  (t.bank_account_id, t.booking_date, t.amount, t.creditor_account_last4,
   t.debtor_account_last4)

/-- Whether some two rows at distinct positions share the same dedup key. -/
def hasDedupDuplicate : List Transaction → Bool
  | [] => false
  | t :: ts => ts.any (fun u => dedupKey u = dedupKey t) || hasDedupDuplicate ts

/-- Projection of a sync outcome to `(synced_count, new_transactions)`, `none`
on error. -/
def syncCounts (r : Store × Except AppError SyncTransactionsResponse) :
    Option (Nat × Nat) :=
  match r.2 with
  | Except.ok resp => some (resp.synced_count, resp.new_transactions)
  | Except.error _ => none

/-- Number of stored transaction rows after an operation returning a store. -/
def storedTxCount (r : Store × Except AppError SyncTransactionsResponse) : Nat :=
  r.1.transactions.length

/-! ### Concrete fixtures -/

/-- A stored bank link whose consent is `valid` until time 1000, owned by
account 7. -/
def demoLink : BankAccount :=
  { id := 1, account_id := 7, bank_provider := "vpbank", consent_id := "consent-1",
    iban := "LI6608801000023123DEM", consent_valid_until := 1000,
    consent_status := "valid", is_active := true, last_synced_at := none }

/-- A store holding the single link `demoLink` and no transactions. -/
def demoStore : Store := { bankAccounts := [demoLink], transactions := [] }

/-- One booked provider record carrying a booking date. -/
def demoTx : RawTx :=
  { bookingDate := some 400, valueDate := none, amount := some 2550,
    currency := some "EUR", creditorIban := some "DE89370400440532013000",
    debtorIban := none, creditorName := some "Test Recipient GmbH",
    debtorName := none }

/-- A provider feed with one booked record and no pending records. -/
def demoFeed : TxFeed := { booked := [demoTx], pending := [] }

/-- First sync of `demoStore` against `demoFeed` at time 500. -/
def demoSync1 : Store × Except AppError SyncTransactionsResponse :=
  sync_transactions_from_bank demoStore 1 7 500 (true, some demoFeed)

/-- Second sync, immediately after the first, with the identical feed. -/
def demoSync2 : Store × Except AppError SyncTransactionsResponse :=
  sync_transactions_from_bank demoSync1.1 1 7 500 (true, some demoFeed)

example : syncCounts demoSync1 = some (1, 1) := by decide
example : syncCounts demoSync2 = some (1, 1) := by decide
example : storedTxCount demoSync1 = 1 := by decide
example : storedTxCount demoSync2 = 2 := by decide
example : hasDedupDuplicate demoSync2.1.transactions = true := by decide

/-! ### Claims C1 - C4 -/

/-- C1: the claim states that a second `sync` over an unchanged feed returns
`newTransactions = 0` and leaves the stored row count unchanged. The code has no
duplicate check at all (every fetched record is inserted and counted as new), so
on the concrete valid link `demoLink` with the one-record feed `demoFeed` the
second call returns `new_transactions = 1` and the stored count grows from 1 to
2 — the code contradicts the spec and its own comments labelling the fields a
"Compound Unique Key" (its repository helper `transaction_exists_by_details` is
never called). -/
theorem C1_sync_not_idempotent :
    syncCounts demoSync1 = some (1, 1) ∧
    syncCounts demoSync2 = some (1, 1) ∧
    storedTxCount demoSync1 = 1 ∧
    storedTxCount demoSync2 = 2 := by
  refine ⟨by decide, by decide, by decide, by decide⟩

/-- C2: the claim states that no two stored rows agree on the five dedup-tuple
fields and that this is enforced by a storage-layer constraint. Neither holds:
the SQLAlchemy model declares no unique constraint at all, the migration's only
unique constraint is on `(bank_account_id, transaction_id)` — not the dedup
tuple — and the state reached by running `sync` twice on the same feed contains
two rows with identical dedup keys. -/
theorem C2_dedup_tuple_not_enforced :
    dedup_tuple_columns ∉ transaction_model_unique_constraints ∧
    dedup_tuple_columns ∉ migration_transactions_unique_constraints ∧
    hasDedupDuplicate demoSync2.1.transactions = true := by
  refine ⟨by decide, by decide, by decide⟩

deriving instance DecidableEq for Except

/-- Provider behaviour that reproduces the consent-id collision of claim C3:
consent creation succeeds, the discovered consent id `"consent-1"` equals the
consent id already stored on `demoLink`, and the balance probe succeeds. -/
def c3Provider : LinkProvider :=
  { consentOutcome := ConsentOutcome.ok "LI21088100002001M5604",
    consentId := some "consent-1", balanceProbeSuccess := true }

/-- C3: the claim states the collision fails with `ConflictError` and no other
error type. On the concrete collision input the code raises
`ConflictException` inside its own `try` block, where the broad
`except Exception` handler swallows it and re-raises
`BusinessRuleException("Failed to link bank account: This bank account is
already linked")` — the caller observes a business-rule error, not a conflict.
The store is unchanged (no `BankLink` persisted), as the claim demands. -/
theorem C3_consent_collision_raises_business_rule :
    link_bank_account demoStore 8 "vpbank" c3Provider 0 99 =
      (demoStore, Except.error (AppError.businessRule
        "Failed to link bank account: This bank account is already linked")) := by
  decide

/-- The boundary-instant sync of claim C4: `now` equals `consent_valid_until`
exactly. -/
def c4BoundarySync : Store × Except AppError SyncTransactionsResponse :=
  sync_transactions_from_bank demoStore 1 7 1000 (true, some demoFeed)

/-- C4 counterexample: the claim states `sync` fails with `BusinessRuleError`
whenever `now >= consentValidUntil`, including equality. The code's guard is
the strict `bank_account.consent_valid_until < datetime.now(...)`, so at the
boundary instant (`now = consent_valid_until = 1000` on `demoLink`) the sync
proceeds and succeeds instead of failing. -/
theorem C4_boundary_sync_succeeds :
    syncCounts c4BoundarySync = some (1, 1) := by decide

/-- C4 (amended): for a link with `consentStatus = "valid"`, `sync` fails with
`BusinessRuleError` whenever `now` is STRICTLY past `consentValidUntil`; the
result is the same for every provider fetch outcome (no provider call can
influence it) and the store is returned unchanged. -/
theorem C4_expiry_gate_strict (store : Store) (bank_account_id account_id : Nat)
    (bank_account : BankAccount) (now : Int) (fetch : Bool × Option TxFeed)
    (hfind : get_bank_account_by_id store bank_account_id account_id = some bank_account)
    (hstatus : bank_account.consent_status = "valid")
    (hexpired : bank_account.consent_valid_until < now) :
    sync_transactions_from_bank store bank_account_id account_id now fetch =
      (store, Except.error (AppError.businessRule "Consent has expired")) := by
  unfold sync_transactions_from_bank
  rw [hfind]
  simp [hstatus, hexpired]

/-- Witness for the amended C4 at a concrete expired instant (`now = 2000`,
validity bound 1000). -/
theorem C4_expiry_gate_strict_witness :
    sync_transactions_from_bank demoStore 1 7 2000 (true, some demoFeed) =
      (demoStore, Except.error (AppError.businessRule "Consent has expired")) :=
  C4_expiry_gate_strict demoStore 1 7 demoLink 2000 (true, some demoFeed)
    (by decide) (by decide) (by decide)

/-! ### Claims C5 - C6 -/

/-- C5: if the balance probe during linking fails, `link_bank_account` raises a
`BusinessRuleError` (the inner `BusinessRuleException` is re-wrapped by the
broad handler with the `"Failed to link bank account:"` prefix), the store is
returned unchanged, and afterwards the owner still has no `BankLink` row. -/
theorem C5_probe_failure_persists_nothing (store : Store) (account_id : Nat)
    (provider : LinkProvider) (now : Int) (new_id : Nat) (iban consent_id : String)
    (hnone : get_bank_account_by_account_id store account_id = none)
    (hconsent : provider.consentOutcome = ConsentOutcome.ok iban)
    (hcid : provider.consentId = some consent_id)
    (hcid2 : consent_id ≠ "")
    (hprobe : provider.balanceProbeSuccess = false) :
    link_bank_account store account_id "vpbank" provider now new_id =
      (store, Except.error (AppError.businessRule
        ("Failed to link bank account: IBAN " ++ iban ++
         " is not accessible or invalid. The bank API returned an error when trying to access this account."))) ∧
    get_bank_account_by_account_id
      (link_bank_account store account_id "vpbank" provider now new_id).1 account_id = none := by
  have h : link_bank_account store account_id "vpbank" provider now new_id =
      (store, Except.error (AppError.businessRule
        ("Failed to link bank account: IBAN " ++ iban ++
         " is not accessible or invalid. The bank API returned an error when trying to access this account."))) := by
    unfold link_bank_account
    rw [hnone, hconsent, hcid]
    simp [hcid2, hprobe]
  exact ⟨h, by rw [h]; exact hnone⟩

/-- Provider behaviour with a failing balance probe, for the C5 witness. -/
def c5Provider : LinkProvider :=
  { consentOutcome := ConsentOutcome.ok "LI21088100002001M5604",
    consentId := some "consent-9", balanceProbeSuccess := false }

/-- Witness for C5 on the empty store. -/
theorem C5_probe_failure_persists_nothing_witness :
    link_bank_account { bankAccounts := [], transactions := [] } 7 "vpbank" c5Provider 0 1 =
      ({ bankAccounts := [], transactions := [] }, Except.error (AppError.businessRule
        ("Failed to link bank account: IBAN " ++ "LI21088100002001M5604" ++
         " is not accessible or invalid. The bank API returned an error when trying to access this account."))) ∧
    get_bank_account_by_account_id
      (link_bank_account { bankAccounts := [], transactions := [] } 7 "vpbank" c5Provider 0 1).1 7 = none :=
  C5_probe_failure_persists_nothing { bankAccounts := [], transactions := [] } 7
    c5Provider 0 1 "LI21088100002001M5604" "consent-9"
    (by decide) (by decide) (by decide) (by decide) (by decide)

/-- C6: when the owner already has a stored bank link, `link_bank_account`
fails with `ConflictError` whatever the requested provider and whatever the
provider-side behaviour would be (the conclusion does not depend on the
`provider` parameter, reflecting that the check precedes every provider call),
and the store is returned unchanged. The owner lookup

`bank_account_repository.get_bank_account_by_account_id` is absent from the
sources and is modelled from the spec. -/
theorem C6_second_link_conflict (store : Store) (account_id : Nat)
    (bank_account : BankAccount) (bank_provider : String)
    (provider : LinkProvider) (now : Int) (new_id : Nat)
    (hsome : get_bank_account_by_account_id store account_id = some bank_account) :
    link_bank_account store account_id bank_provider provider now new_id =
      (store, Except.error (AppError.conflict "User already has a bank account linked")) := by
  unfold link_bank_account
  rw [hsome]

/-- Provider behaviour for the C6 witness (a fully successful provider run,
which must still be irrelevant). -/
def c6Provider : LinkProvider :=
  { consentOutcome := ConsentOutcome.ok "LI21088100002001M5604",
    consentId := some "consent-2", balanceProbeSuccess := true }

/-- Witness for C6: account 7 already owns `demoLink` in `demoStore`. -/
theorem C6_second_link_conflict_witness :
    link_bank_account demoStore 7 "vpbank" c6Provider 0 99 =
      (demoStore, Except.error (AppError.conflict "User already has a bank account linked")) :=
  C6_second_link_conflict demoStore 7 demoLink "vpbank" c6Provider 0 99 (by decide)

/-! ### Claim C7 -/

/-- A header lookup misses when no entry carries the key. -/
theorem headers_get_eq_none (headers : List (String × String)) (key : String)
    (h : ∀ p ∈ headers, p.1 ≠ key) : headers_get headers key = none := by
  unfold headers_get
  rw [List.find?_eq_none.2]
  · rfl
  · intro p hp
    simpa using h p hp

/-- No entry of `headers_del headers key` carries `key`. -/
theorem mem_headers_del (headers : List (String × String)) (key : String)
    (p : String × String) (hp : p ∈ headers_del headers key) : p.1 ≠ key := by
  have := List.mem_filter.1 hp
  simpa using this.2

/-- Every entry of `headers_update headers key value` either carries `key` or
was already present. -/
theorem mem_headers_update (headers : List (String × String)) (key value : String)
    (p : String × String) (hp : p ∈ headers_update headers key value) :
    p.1 = key ∨ p ∈ headers := by
  unfold headers_update at hp
  split at hp
  · obtain ⟨q, hq, hfq⟩ := List.mem_map.1 hp
    by_cases hqk : q.1 = key
    · left
      rw [← hfq]
      simp [hqk]
    · right
      rw [← hfq]
      simpa [hqk] using hq
  · rcases List.mem_append.1 hp with h | h
    · right; exact h
    · left
      have : p = (key, value) := by simpa using h
      rw [this]

/-- C7: both sandbox-only operations strip the `Consent-ID` header from the
outgoing request whatever headers the session carried, and both translate a 404
response into a plain `False` return instead of an error. -/
theorem C7_sandbox_calls_drop_consent_and_tolerate_404
    (headers : List (String × String)) (request_id : String) (status : Nat) :
    headers_get (delete_all_transactions headers request_id status).request_headers
      "Consent-ID" = none ∧
    headers_get (create_mock_deposit headers request_id status).request_headers
      "Consent-ID" = none ∧
    (delete_all_transactions headers request_id 404).returned = some false ∧
    (create_mock_deposit headers request_id 404).returned = some false := by
  refine ⟨?_, ?_, rfl, rfl⟩
  · apply headers_get_eq_none
    intro p hp
    exact mem_headers_del _ _ p hp
  · apply headers_get_eq_none
    intro p hp
    rcases mem_headers_update _ _ _ p hp with h | h
    · rw [h]; decide
    · exact mem_headers_del _ _ p h

/-! ### Claim C8 -/

/-- C8: the last-4 derivation returns `none` on a missing or empty identifier;
on a non-empty identifier it returns a suffix of the input whose length is
`min 4 (length input)` — i.e. the last 4 characters when the input has at least
4, the whole string otherwise — and in particular maps
`"DE89370400440532013000"` to `"3000"` and `"ABC"` to `"ABC"`. -/
theorem C8_extract_last4 (s : String) :
    _extract_last4 none = none ∧
    _extract_last4 (some "") = none ∧
    (s ≠ "" →
      ∃ t, _extract_last4 (some s) = some t ∧ t.data <:+ s.data ∧
        t.length = min 4 s.length ∧ (s.length < 4 → t = s)) ∧
    _extract_last4 (some "DE89370400440532013000") = some "3000" ∧
    _extract_last4 (some "ABC") = some "ABC" := by
  refine ⟨rfl, rfl, ?_, by decide, by decide⟩
  intro hs
  simp only [_extract_last4]
  rw [if_neg hs]
  by_cases h4 : 4 ≤ s.length
  · rw [if_pos h4]
    refine ⟨_, rfl, List.drop_suffix _ _, ?_, ?_⟩
    · have hmk : (String.mk (s.data.drop (s.data.length - 4))).length
          = (s.data.drop (s.data.length - 4)).length := rfl
      rw [hmk, List.length_drop]
      have hl : s.length = s.data.length := rfl
      omega
    · intro hlt
      omega
  · rw [if_neg h4]
    refine ⟨s, rfl, List.suffix_refl _, ?_, fun _ => rfl⟩
    omega

/-- Witness for C8 at the five-character identifier `"ABCDE"`. -/
theorem C8_extract_last4_witness :
    ∃ t, _extract_last4 (some "ABCDE") = some t ∧ t.data <:+ "ABCDE".data ∧
      t.length = min 4 "ABCDE".length ∧ ("ABCDE".length < 4 → t = "ABCDE") :=
  (C8_extract_last4 "ABCDE").2.2.1 (by decide)

/-! ### Claims C9 - C10 -/

/-- Arbitrary default row, used only as the `getD` fallback in positional
statements. -/
def defaultTransaction : Transaction :=
  { bank_account_id := 0, booking_date := 0, value_date := none, amount := 0,
    currency := "EUR", creditor_name := none, debtor_name := none,
    creditor_account_last4 := none, debtor_account_last4 := none,
    booking_status := "booked" }

/-- Arbitrary default raw record, used only as the `getD` fallback in
positional statements. -/
def defaultRawTx : RawTx :=
  { bookingDate := none, valueDate := none, amount := none, currency := none,
    creditorIban := none, debtorIban := none, creditorName := none,
    debtorName := none }

/-- C9: a successful sync stores one row per fetched record — records without a
booking date are not dropped — and the row at position `i` of the newly stored
block carries the `i`-th record's booking date when present and the ingestion
time `now` otherwise. -/
theorem C9_missing_booking_date_gets_now (store : Store)
    (bank_account_id account_id : Nat) (bank_account : BankAccount) (now : Int)
    (feed : TxFeed)
    (hfind : get_bank_account_by_id store bank_account_id account_id = some bank_account)
    (hstatus : bank_account.consent_status = "valid")
    (hexp : ¬ bank_account.consent_valid_until < now) :
    (∃ resp, (sync_transactions_from_bank store bank_account_id account_id now
        (true, some feed)).2 = Except.ok resp ∧
      resp.synced_count = feed.booked.length + feed.pending.length) ∧
    (sync_transactions_from_bank store bank_account_id account_id now
        (true, some feed)).1.transactions.length
      = store.transactions.length + (feed.booked.length + feed.pending.length) ∧
    ∀ i, i < feed.booked.length + feed.pending.length →
      ((sync_transactions_from_bank store bank_account_id account_id now
          (true, some feed)).1.transactions.getD
        (store.transactions.length + i) defaultTransaction).booking_date
      = ((feed.booked ++ feed.pending).getD i defaultRawTx).bookingDate.getD now := by
  have hrun : sync_transactions_from_bank store bank_account_id account_id now
      (true, some feed)
      = (update_bank_account_sync_time
          { store with transactions := (store.transactions ++
              ((feed.booked ++ feed.pending).map
                (buildTransaction bank_account_id now feed.booked))) }
          bank_account_id now,
        Except.ok
          { synced_count := (feed.booked ++ feed.pending).length,
            new_transactions := ((feed.booked ++ feed.pending).map
              (buildTransaction bank_account_id now feed.booked)).length,
            last_synced_at := now,
            message := "Successfully synced " ++
              toString ((feed.booked ++ feed.pending).map
                (buildTransaction bank_account_id now feed.booked)).length ++
              " new transactions" }) := by
    unfold sync_transactions_from_bank bulk_create_transactions
    rw [hfind]
    simp [hstatus, hexp]
  refine ⟨⟨_, by rw [hrun], by simp⟩, ?_, ?_⟩
  · rw [hrun]
    show (store.transactions ++ _).length = _
    simp
  · intro i hi
    have hlen : i < (feed.booked ++ feed.pending).length := by simpa using hi
    rw [hrun]
    show ((store.transactions ++ (feed.booked ++ feed.pending).map
        (buildTransaction bank_account_id now feed.booked)).getD
      (store.transactions.length + i) defaultTransaction).booking_date = _
    rw [List.getD_append_right _ _ _ _ (Nat.le_add_right _ _)]
    simp only [Nat.add_sub_cancel_left]
    rw [List.getD_eq_getElem?_getD, List.getElem?_map,
        List.getD_eq_getElem?_getD, List.getElem?_eq_getElem hlen]
    simp [buildTransaction]

/-- Feed for the C9 witness: one dated booked record, one pending record with
no booking date. -/
def c9Feed : TxFeed :=
  { booked := [demoTx],
    pending := [{ bookingDate := none, valueDate := none, amount := some 100,
                  currency := none, creditorIban := none,
                  debtorIban := some "DE99111111112222222233",
                  creditorName := none, debtorName := some "MockDeposit Source" }] }

/-- Witness for C9 at position 1 (the record with the missing booking date). -/
theorem C9_missing_booking_date_gets_now_witness :
    ((sync_transactions_from_bank demoStore 1 7 500 (true, some c9Feed)).1.transactions.getD
        (demoStore.transactions.length + 1) defaultTransaction).booking_date
      = ((c9Feed.booked ++ c9Feed.pending).getD 1 defaultRawTx).bookingDate.getD 500 :=
  (C9_missing_booking_date_gets_now demoStore 1 7 demoLink 500 c9Feed
    (by decide) (by decide) (by decide)).2.2 1 (by decide)

/-- C10: `get_balance` gates only on `consent_status`, never on
`consent_valid_until` — for a link whose status is `"valid"` but whose validity
bound lies strictly in the past, a successful provider probe still yields a
balance (in contrast with `sync`, which rejects such a link). -/
theorem C10_balance_ignores_expiry (store : Store) (bank_account_id account_id : Nat)
    (bank_account : BankAccount) (now : Int) (balance_data : List (String × String))
    (hfind : get_bank_account_by_id store bank_account_id account_id = some bank_account)
    (hstatus : bank_account.consent_status = "valid")
    (hpast : bank_account.consent_valid_until < now)
    (hne : balance_data ≠ []) :
    get_balance store bank_account_id account_id (true, some balance_data) =
      Except.ok { amount := dictGet balance_data "amount" "0",
                  currency := dictGet balance_data "currency" "EUR" } := by
  unfold get_balance
  rw [hfind]
  have hempty : balance_data.isEmpty = false := by simp [List.isEmpty_iff, hne]
  simp [hstatus, hempty]

/-- Witness for C10: `demoLink` is valid-by-status but expired at `now = 2000`,
and the balance call still succeeds. -/
theorem C10_balance_ignores_expiry_witness :
    get_balance demoStore 1 7
        (true, some [("amount", "100.50"), ("currency", "EUR")]) =
      Except.ok
        { amount := dictGet [("amount", "100.50"), ("currency", "EUR")] "amount" "0",
          currency := dictGet [("amount", "100.50"), ("currency", "EUR")] "currency" "EUR" } :=
  C10_balance_ignores_expiry demoStore 1 7 demoLink 2000
    [("amount", "100.50"), ("currency", "EUR")]
    (by decide) (by decide) (by decide) (by decide)
